import Mathlib

/-!
Verification of the mockery MCP server (interface-discovery and
protocol-dispatch server) against its natural-language specification.

The Go source is shallowly embedded:

* Go maps (`map[string]T`) are modelled as association lists together with
  `mapLookup` / `mapInsert`; a possibly-nil map is an `Option` of such a
  list (Go distinguishes a nil map from an empty one, and the config
  manager checks `config.Packages == nil`).  Go map iteration order is
  unspecified; the model iterates in list order.
* A Go struct assignment `config := m.defaultConfig` copies scalar fields
  but aliases the map field; functions whose observable behaviour depends
  on that aliasing (`GenerateConfig`) are modelled as returning both the
  result and the manager's post-call default configuration, so the
  mutation through the alias is explicit.
* Filesystem access, `exec.LookPath` and process execution are an explicit
  environment (`Env`) plus an explicit effect log (`FsState`).
-/

namespace MockeryMCP

/-! Part: Association-list model of Go maps -/

/-- First-match lookup, the read semantics of a Go map. -/
def mapLookup {α : Type} : List (String × α) → String → Option α
  | [], _ => none
  | (k, v) :: rest, key => if k = key then some v else mapLookup rest key

/-- Source: `m[key] = v` on a Go map: replaces any existing entry for `key`. -/
def mapInsert {α : Type} (m : List (String × α)) (key : String) (v : α) :
    List (String × α) :=
  (m.filter (fun kv => !(kv.1 == key))) ++ [(key, v)]

/-- Left-biased choice on `Option`, used to state map-union facts. -/
def oFirst {α : Type} : Option α → Option α → Option α
  | some v, _ => some v
  | none, b => b

theorem mapLookup_eq_none {α : Type} (m : List (String × α)) (key : String)
    (h : key ∉ m.map Prod.fst) : mapLookup m key = none := by
  induction m with
  | nil => rfl
  | cons kv rest ih =>
    obtain ⟨k, v⟩ := kv
    simp only [List.map_cons, List.mem_cons] at h
    push_neg at h
    simp only [mapLookup]
    rw [if_neg (fun e => h.1 e.symm)]
    exact ih h.2

theorem mapLookup_append {α : Type} (l1 l2 : List (String × α)) (k : String) :
    mapLookup (l1 ++ l2) k = oFirst (mapLookup l1 k) (mapLookup l2 k) := by
  induction l1 with
  | nil => simp [mapLookup, oFirst]
  | cons kv rest ih =>
    obtain ⟨k0, v0⟩ := kv
    simp only [List.cons_append, mapLookup]
    by_cases h : k0 = k
    · rw [if_pos h, if_pos h]; rfl
    · rw [if_neg h, if_neg h]
      exact ih

theorem mapLookup_filterOut {α : Type} (m : List (String × α)) (key k : String) :
    mapLookup (m.filter (fun kv => !(kv.1 == key))) k =
      if k = key then none else mapLookup m k := by
  induction m with
  | nil => simp [mapLookup]
  | cons kv rest ih =>
    obtain ⟨k0, v0⟩ := kv
    by_cases h0 : k0 = key
    · subst h0
      have hp : (!((k0, v0).1 == k0)) = false := by simp
      rw [List.filter_cons, hp]
      simp only [Bool.false_eq_true, if_false, ih]
      by_cases hk : k = k0
      · rw [if_pos hk, if_pos hk]
      · rw [if_neg hk, if_neg hk]
        simp only [mapLookup]
        rw [if_neg (fun e => hk e.symm)]
    · have hp : (!((k0, v0).1 == key)) = true := by simp [h0]
      rw [List.filter_cons, hp]
      simp only [if_true, mapLookup]
      by_cases hk0 : k0 = k
      · rw [if_pos hk0, if_neg (fun e => h0 (hk0.trans e)), if_pos hk0]
      · rw [if_neg hk0, ih]
        by_cases hk : k = key
        · rw [if_pos hk, if_pos hk]
        · rw [if_neg hk, if_neg hk, if_neg hk0]

theorem mapLookup_insert {α : Type} (m : List (String × α)) (key k : String)
    (v : α) :
    mapLookup (mapInsert m key v) k =
      if k = key then some v else mapLookup m k := by
  unfold mapInsert
  rw [mapLookup_append, mapLookup_filterOut]
  by_cases h : k = key
  · rw [if_pos h, if_pos h]
    simp [oFirst, mapLookup, h]
  · rw [if_neg h, if_neg h]
    cases hm : mapLookup m k with
    | none =>
      simp only [oFirst, mapLookup]
      rw [if_neg (fun e => h e.symm)]
    | some w => rfl

/-! Part: Configuration data model (internal/types, as used by internal/config) -/

/-- Source: `types.InterfaceSettings`: per-interface generation settings. -/
structure InterfaceSettings where
  dir : String
  filename : String
deriving DecidableEq

/-- Source: `types.InterfaceConfig`: wrapper holding one interface's settings. -/
structure InterfaceConfig where
  config : InterfaceSettings
deriving DecidableEq

/-- Source: `types.Package`: one configured package (map interface name → config).
The source never distinguishes a nil inner map from an empty one (it only
takes `len` and ranges), so the inner map is a plain association list. -/
structure Package where
  interfaces : List (String × InterfaceConfig)
deriving DecidableEq

/-- Source: `types.MockeryConfig`: the persisted generation configuration.
`packages = none` models a nil Go map. -/
structure MockeryConfig where
  withExpector : Bool
  filename : String
  outPkg : String
  packages : Option (List (String × Package))
deriving DecidableEq

/-- Source: `types.MockGenerationRequest`. -/
structure MockGenerationRequest where
  interfaceName : String
  packagePath : String
  outputDir : String
  withExpector : Bool
  filenameFormat : String
deriving DecidableEq

/-- Source: `types.MockGenerationResult` (the timestamp is the tick taken from the
environment at the start of the call). -/
structure MockGenerationResult where
  success : Bool
  generatedFile : String
  generatedAt : Nat
  mockeryOutput : String
deriving DecidableEq

/-! Part: Configuration store (internal/config/manager.go) -/

/-- The default configuration installed by `NewMockeryConfigManager`. -/
def defaultMockeryConfig : MockeryConfig :=
  { withExpector := true
    filename := "mock_\x7b\x7b.InterfaceName\x7d\x7d.go"
    outPkg := "mocks"
    packages := some [] }

/-- Source: `GenerateConfig`.  In Go, `config := m.defaultConfig` copies the struct
but the `Packages` field is a map, so unless that map is nil the copy and
the manager share one map and `config.Packages[...] = ...` writes through
to the manager's default configuration.  The model returns
`(the returned config, the manager's defaultConfig after the call)`. -/
def generateConfig (defaultConfig : MockeryConfig)
    (request : MockGenerationRequest) : MockeryConfig × MockeryConfig :=
  let shared := defaultConfig.packages.isSome
  let pkgs0 := defaultConfig.packages.getD []
  let interfaceConfig : InterfaceConfig :=
    { config :=
        { dir := request.packagePath
          filename :=
            if request.filenameFormat = "" then
              "mock_" ++ request.interfaceName.toLower ++ ".go"
            else request.filenameFormat } }
  let packageConfig : Package :=
    { interfaces := [(request.interfaceName, interfaceConfig)] }
  let pkgs1 := mapInsert pkgs0 request.packagePath packageConfig
  let result : MockeryConfig :=
    { defaultConfig with
        packages := some pkgs1
        withExpector := if request.withExpector then true
                        else defaultConfig.withExpector }
  let managerAfter :=
    if shared then { defaultConfig with packages := some pkgs1 }
    else defaultConfig
  (result, managerAfter)

/-- Inner loop of `ValidateConfigSyntax` over one package's interfaces. -/
def validateInterfaces (packagePath : String) :
    List (String × InterfaceConfig) → Option String
  | [] => none
  | (interfaceName, interfaceConfig) :: rest =>
    if interfaceName = "" then
      some ("interface name cannot be empty in package " ++ packagePath)
    else if interfaceConfig.config.dir = "" then
      some ("directory is required for interface " ++ interfaceName ++
            " in package " ++ packagePath)
    else validateInterfaces packagePath rest

/-- Outer loop of `ValidateConfigSyntax` over the package map. -/
def validatePackages : List (String × Package) → Option String
  | [] => none
  | (packagePath, packageConfig) :: rest =>
    if packagePath = "" then some "package path cannot be empty"
    else if packageConfig.interfaces.length = 0 then
      some ("package " ++ packagePath ++ " has no interfaces configured")
    else
      match validateInterfaces packagePath packageConfig.interfaces with
      | some e => some e
      | none => validatePackages rest

/-- Source: `ValidateConfigSyntax`: `none` means the configuration is valid,
`some e` is the returned error message. -/
def validateConfigSyntax (config : MockeryConfig) : Option String :=
  if config.filename = "" then some "filename is required"
  else if config.outPkg = "" then some "outpkg is required"
  else validatePackages (config.packages.getD [])

/-- Source: `MergeConfigurations` (content of the returned configuration; the
write-through of the loop into `base`'s map through the shallow copy does
not change the returned value and is not modelled). -/
def mergeConfigurations (base override : MockeryConfig) : MockeryConfig :=
  { withExpector :=
      if override.withExpector then override.withExpector
      else base.withExpector
    filename :=
      if override.filename ≠ "" then override.filename else base.filename
    outPkg :=
      if override.outPkg ≠ "" then override.outPkg else base.outPkg
    packages :=
      some ((override.packages.getD []).foldl
        (fun acc kv => mapInsert acc kv.1 kv.2)
        (base.packages.getD [])) }

/-! Part: Scanner data model (internal/types, as used by internal/scanner) -/

/-- Source: `types.Parameter`: a method parameter or return value. -/
structure Parameter where
  name : String
  type : String
deriving DecidableEq

/-- Source: `types.MethodSignature`. -/
structure MethodSignature where
  name : String
  parameters : List Parameter
  returns : List Parameter
  comments : List String
deriving DecidableEq

/-- Source: `types.InterfaceDefinition` (the Go field `Package` is called `pkg`
here because `Package` already names the configuration type). -/
structure InterfaceDefinition where
  name : String
  pkg : String
  methods : List MethodSignature
  filePath : String
  lineNumber : Nat
  comments : List String
deriving DecidableEq

/-! Part: Go AST model (the `go/ast` shapes the scanner inspects) -/

/-- Channel direction of an `*ast.ChanType`. -/
inductive ChanDir where
  | send
  | recv
  | both
deriving DecidableEq

mutual
/-- A Go type expression (`ast.Expr`), covering every shape `typeToString`
distinguishes; `basicLit` (e.g. the literal `5` in `[5]int`) and
`structType` land in the function's `default` branch. -/
inductive GoExpr where
  | ident (name : String)
  | selector (x : GoExpr) (sel : String)
  | star (x : GoExpr)
  | arrayType (len : Option GoExpr) (elt : GoExpr)
  | mapType (key value : GoExpr)
  | chanType (dir : ChanDir) (value : GoExpr)
  | funcType (params : List GoField) (results : List GoField)
  | interfaceType (methods : List GoField)
  | basicLit (value : String)
  | structType

/-- An `*ast.Field`: a list of names sharing one type, plus its doc
comment group (raw comment text, `//` markers included). -/
inductive GoField where
  | mk (names : List String) (ty : GoExpr) (doc : List String)
end

/-- An `*ast.TypeSpec` inside a `type` declaration, with the line number
`fileSet.Position(typeSpec.Pos()).Line` would report. -/
structure TypeSpec where
  name : String
  line : Nat
  ty : GoExpr

mutual
/-- A top-level or statement-level declaration (`ast.Decl`): a generic
declaration (with `isType` true exactly when `Tok == token.TYPE`) or a
function declaration with a body. -/
inductive Decl where
  | genDecl (isType : Bool) (doc : List String) (specs : List TypeSpec)
  | funcDecl (body : List Stmt)

/-- A statement, kept only as far as `ast.Inspect` can reach further
declarations through it. -/
inductive Stmt where
  | declStmt (d : Decl)
  | blockStmt (body : List Stmt)
  | otherStmt
end

/-- A parsed Go source file (`*ast.File`): package name and declarations. -/
structure GoFile where
  pkgName : String
  decls : List Decl

/-! Part: Source scanner (internal/scanner in mcp.go) -/

/-- Source: `typeToString`: renders an AST type expression. -/
def typeToString : GoExpr → String
  | .ident name => name
  | .selector x sel => typeToString x ++ "." ++ sel
  | .star x => "*" ++ typeToString x
  | .arrayType none elt => "[]" ++ typeToString elt
  | .arrayType (some len) elt =>
      "[" ++ typeToString len ++ "]" ++ typeToString elt
  | .mapType key value =>
      "map[" ++ typeToString key ++ "]" ++ typeToString value
  | .chanType .send value => "chan<- " ++ typeToString value
  | .chanType .recv value => "<-chan " ++ typeToString value
  | .chanType .both value => "chan " ++ typeToString value
  | .funcType _ _ => "func"
  | .interfaceType _ => "interface\x7b\x7d"
  | .basicLit _ => "unknown"
  | .structType => "unknown"

/-- Source: `strings.TrimPrefix(comment.Text, "//")`. -/
def trimCommentMarker (s : String) : String :=
  if s.startsWith "//" then s.drop 2 else s

/-- One `*ast.Field` of a parameter or result list expands to one
`Parameter` per name, or to a single anonymous one. -/
def fieldParameters : GoField → List Parameter
  | .mk names ty _ =>
    let t := typeToString ty
    match names with
    | [] => [{ name := "", type := t }]
    | _ => names.map (fun n => { name := n, type := t })

/-- Source: `extractMethodSignature`. -/
def extractMethodSignature (name : String) (methodType : GoExpr)
    (doc : List String) : MethodSignature :=
  match methodType with
  | .funcType params results =>
      { name := name
        parameters := params.flatMap fieldParameters
        returns := results.flatMap fieldParameters
        comments := doc.map trimCommentMarker }
  | _ =>
      { name := name
        parameters := []
        returns := []
        comments := doc.map trimCommentMarker }

/-- Source: `extractInterfaceDefinition`: methods with at least one name become
signatures (named by their first name); embedded interfaces (no names)
are skipped. -/
def extractInterfaceDefinition (name : String) (methods : List GoField)
    (packageName filePath : String) (lineNumber : Nat)
    (docGroup : List String) : InterfaceDefinition :=
  { name := name
    pkg := packageName
    methods := methods.filterMap (fun f =>
      match f with
      | .mk [] _ _ => none
      | .mk (n :: _) ty doc => some (extractMethodSignature n ty doc))
    filePath := filePath
    lineNumber := lineNumber
    comments := docGroup.map trimCommentMarker }

/-- The interfaces one type `GenDecl` contributes: one per `TypeSpec`
whose type is an interface literal. -/
def genDeclInterfaces (pkg filePath : String) (doc : List String)
    (specs : List TypeSpec) : List InterfaceDefinition :=
  specs.filterMap (fun ts =>
    match ts.ty with
    | .interfaceType ms =>
        some (extractInterfaceDefinition ts.name ms pkg filePath ts.line doc)
    | _ => none)

mutual
/-- Source: `ast.Inspect` collection over one declaration: the inspection matches
every `*ast.GenDecl` in the whole tree, so it also descends into function
bodies. -/
def declInterfaces (pkg filePath : String) : Decl → List InterfaceDefinition
  | .genDecl isType doc specs =>
      if isType then genDeclInterfaces pkg filePath doc specs else []
  | .funcDecl body => stmtListInterfaces pkg filePath body

def stmtInterfaces (pkg filePath : String) : Stmt → List InterfaceDefinition
  | .declStmt d => declInterfaces pkg filePath d
  | .blockStmt body => stmtListInterfaces pkg filePath body
  | .otherStmt => []

def declListInterfaces (pkg filePath : String) :
    List Decl → List InterfaceDefinition
  | [] => []
  | d :: rest =>
      declInterfaces pkg filePath d ++ declListInterfaces pkg filePath rest

def stmtListInterfaces (pkg filePath : String) :
    List Stmt → List InterfaceDefinition
  | [] => []
  | s :: rest =>
      stmtInterfaces pkg filePath s ++ stmtListInterfaces pkg filePath rest
end

/-- The interface definitions `scanFile` collects from a parsed file. -/
def scanFileDefs (filePath : String) (f : GoFile) : List InterfaceDefinition :=
  declListInterfaces f.pkgName filePath f.decls

/-- Source: `scanFile`: parse failure is an error; otherwise the collected
definitions.  The parse outcome is the `parsed` argument. -/
def scanFile (filePath : String) (parsed : Option GoFile) :
    Except String (List InterfaceDefinition) :=
  match parsed with
  | none => .error ("failed to parse file " ++ filePath)
  | some f => .ok (scanFileDefs filePath f)

/-- Source: `strings.Contains`. -/
def strContainsAux (sub : List Char) : List Char → Bool
  | [] => sub.isEmpty
  | c :: rest => sub.isPrefixOf (c :: rest) || strContainsAux sub rest

/-- Source: `strings.Contains`. -/
def strContains (s sub : String) : Bool :=
  strContainsAux sub.toList s.toList

/-- Source: `strings.HasSuffix` (stated over the character lists so that it
evaluates by kernel reduction). -/
def goHasSuffix (s suffix : String) : Bool :=
  List.isPrefixOf suffix.toList.reverse s.toList.reverse

/-- One regular file as `filepath.Walk` presents it to the callback:
its path, whether the walk handed the callback an access error, and the
parse outcome `scanFile` would see. -/
structure FileEntry where
  path : String
  accessErr : Bool
  parsed : Option GoFile

/-- The `filepath.Walk` loop inside `ScanProject`: an access error aborts
the walk; non-Go files, test files and vendored files are skipped; a
per-file parse failure is skipped; otherwise the file's interfaces are
appended. -/
def scanProjectWalk :
    List FileEntry → List InterfaceDefinition →
      Except String (List InterfaceDefinition)
  | [], acc => .ok acc
  | e :: rest, acc =>
    if e.accessErr then .error ("access error: " ++ e.path)
    else if !(goHasSuffix e.path ".go") then scanProjectWalk rest acc
    else if goHasSuffix e.path "_test.go" then scanProjectWalk rest acc
    else if strContains e.path "vendor/" then scanProjectWalk rest acc
    else
      match scanFile e.path e.parsed with
      | .error _ => scanProjectWalk rest acc
      | .ok defs => scanProjectWalk rest (acc ++ defs)

/-- Source: `ScanProject` over the walk-order list of regular files below the
project root. -/
def scanProject (files : List FileEntry) :
    Except String (List InterfaceDefinition) :=
  match scanProjectWalk files [] with
  | .error e => .error ("failed to scan project: " ++ e)
  | .ok defs => .ok defs

/-! Part: Shared validation lemmas -/

theorem validateInterfaces_eq_none_iff (packagePath : String)
    (l : List (String × InterfaceConfig)) :
    validateInterfaces packagePath l = none ↔
      ∀ e ∈ l, e.1 ≠ "" ∧ e.2.config.dir ≠ "" := by
  induction l with
  | nil => simp [validateInterfaces]
  | cons e rest ih =>
    obtain ⟨n, ic⟩ := e
    simp only [validateInterfaces]
    by_cases hn : n = ""
    · simp [hn]
    · rw [if_neg hn]
      by_cases hd : ic.config.dir = ""
      · simp [hd, hn]
      · rw [if_neg hd]
        simp only [List.mem_cons, ih]
        constructor
        · intro h
          intro e he
          rcases he with he | he
          · subst he; exact ⟨hn, hd⟩
          · exact h e he
        · intro h e he
          exact h e (Or.inr he)

theorem validatePackages_eq_none_iff (l : List (String × Package)) :
    validatePackages l = none ↔
      ∀ e ∈ l, e.1 ≠ "" ∧ e.2.interfaces ≠ [] ∧
        ∀ i ∈ e.2.interfaces, i.1 ≠ "" ∧ i.2.config.dir ≠ "" := by
  induction l with
  | nil => simp [validatePackages]
  | cons e rest ih =>
    obtain ⟨pp, pc⟩ := e
    simp only [validatePackages]
    by_cases hp : pp = ""
    · simp [hp]
    · rw [if_neg hp]
      by_cases hlen : pc.interfaces.length = 0
      · rw [if_pos hlen]
        have hnil : pc.interfaces = [] := List.length_eq_zero.mp hlen
        simp [hnil, hp]
      · rw [if_neg hlen]
        have hne : pc.interfaces ≠ [] := by
          intro h; exact hlen (by simp [h])
        cases hv : validateInterfaces pp pc.interfaces with
        | some e0 =>
          simp only [List.mem_cons]
          constructor
          · intro h; cases h
          · intro h
            have := (validateInterfaces_eq_none_iff pp pc.interfaces).mpr
              (h (pp, pc) (Or.inl rfl)).2.2
            rw [hv] at this; cases this
        | none =>
          have hall := (validateInterfaces_eq_none_iff pp pc.interfaces).mp hv
          simp only [List.mem_cons, ih]
          constructor
          · intro h e he
            rcases he with he | he
            · subst he; exact ⟨hp, hne, hall⟩
            · exact h e he
          · intro h e he
            exact h e (Or.inr he)

/-! Part: Claim C7: what configuration validation rejects -/

/-- A configuration meeting all four conditions the claim lists, but
carrying an empty package-path key. -/
def configEmptyPkgPath : MockeryConfig :=
  { withExpector := true
    filename := "mock.go"
    outPkg := "mocks"
    packages := some
      [("", { interfaces :=
        [("I", { config := { dir := "./d", filename := "f.go" } })] })] }

/-- C7 counterexample: this configuration has a non-empty filename
template, a non-empty output package, a package with one interface, and
that interface has a non-empty directory — all four conditions of the
claim — yet `ValidateConfigSyntax` rejects it (empty package-path key),
so validation does not reject exactly the four listed conditions. -/
theorem validateConfigSyntax_rejects_more_than_claimed :
    configEmptyPkgPath.filename ≠ "" ∧
    configEmptyPkgPath.outPkg ≠ "" ∧
    (∀ e ∈ configEmptyPkgPath.packages.getD [], e.2.interfaces.length ≠ 0) ∧
    (∀ e ∈ configEmptyPkgPath.packages.getD [],
      ∀ i ∈ e.2.interfaces, i.2.config.dir ≠ "") ∧
    validateConfigSyntax configEmptyPkgPath =
      some "package path cannot be empty" := by
  decide

/-- C7 (amended): validation rejects exactly six conditions — empty
filename template, empty output package name, an empty package-path key,
a package with zero interfaces, an empty interface-name key, and an
interface entry with an empty directory — and each rejection's error
names the offending field. -/
theorem validateConfigSyntax_characterization :
    (∀ c : MockeryConfig, validateConfigSyntax c = none ↔
      (c.filename ≠ "" ∧ c.outPkg ≠ "" ∧
        ∀ e ∈ c.packages.getD [], e.1 ≠ "" ∧ e.2.interfaces ≠ [] ∧
          ∀ i ∈ e.2.interfaces, i.1 ≠ "" ∧ i.2.config.dir ≠ "")) ∧
    (∀ c : MockeryConfig, c.filename = "" →
      validateConfigSyntax c = some "filename is required") ∧
    (∀ c : MockeryConfig, c.filename ≠ "" → c.outPkg = "" →
      validateConfigSyntax c = some "outpkg is required") ∧
    (∀ (c : MockeryConfig) (pp : String) (pc : Package)
        (rest : List (String × Package)),
      c.filename ≠ "" → c.outPkg ≠ "" →
      c.packages = some ((pp, pc) :: rest) → pp ≠ "" → pc.interfaces = [] →
      validateConfigSyntax c =
        some ("package " ++ pp ++ " has no interfaces configured")) ∧
    (∀ (c : MockeryConfig) (pp : String) (pc : Package)
        (rest : List (String × Package)) (n : String)
        (ic : InterfaceConfig) (irest : List (String × InterfaceConfig)),
      c.filename ≠ "" → c.outPkg ≠ "" →
      c.packages = some ((pp, pc) :: rest) → pp ≠ "" →
      pc.interfaces = (n, ic) :: irest → n ≠ "" → ic.config.dir = "" →
      validateConfigSyntax c =
        some ("directory is required for interface " ++ n ++
              " in package " ++ pp)) := by
  refine ⟨?_, ?_, ?_, ?_, ?_⟩
  · intro c
    unfold validateConfigSyntax
    by_cases hf : c.filename = ""
    · simp [hf]
    · rw [if_neg hf]
      by_cases ho : c.outPkg = ""
      · simp [ho, hf]
      · rw [if_neg ho]
        rw [validatePackages_eq_none_iff]
        simp [hf, ho]
  · intro c hf
    unfold validateConfigSyntax
    rw [if_pos hf]
  · intro c hf ho
    unfold validateConfigSyntax
    rw [if_neg hf, if_pos ho]
  · intro c pp pc rest hf ho hpk hpp hnil
    unfold validateConfigSyntax
    rw [if_neg hf, if_neg ho, hpk]
    show validatePackages ((pp, pc) :: rest) = _
    unfold validatePackages
    rw [if_neg hpp, if_pos (by simp [hnil])]
  · intro c pp pc rest n ic irest hf ho hpk hpp hif hn hd
    unfold validateConfigSyntax
    rw [if_neg hf, if_neg ho, hpk]
    show validatePackages ((pp, pc) :: rest) = _
    unfold validatePackages
    rw [if_neg hpp, if_neg (by simp [hif])]
    rw [hif]
    show (match validateInterfaces pp ((n, ic) :: irest) with
      | some e => some e
      | none => validatePackages rest) = _
    unfold validateInterfaces
    rw [if_neg hn, if_pos hd]

/-- C7 amended-claim witness: the characterization evaluated on concrete
configurations. -/
theorem validateConfigSyntax_characterization_witness :
    validateConfigSyntax defaultMockeryConfig = none ∧
    validateConfigSyntax
      { defaultMockeryConfig with filename := "" } =
        some "filename is required" ∧
    validateConfigSyntax
      { defaultMockeryConfig with outPkg := "" } =
        some "outpkg is required" ∧
    validateConfigSyntax
      { defaultMockeryConfig with
          packages := some [("p", { interfaces := [] })] } =
        some "package p has no interfaces configured" ∧
    validateConfigSyntax
      { defaultMockeryConfig with
          packages := some [("p", { interfaces :=
            [("I", { config := { dir := "", filename := "" } })] })] } =
        some "directory is required for interface I in package p" := by
  refine ⟨?_, ?_, ?_, ?_, ?_⟩
  · exact (validateConfigSyntax_characterization.1 _).mpr (by decide)
  · exact validateConfigSyntax_characterization.2.1 _ (by decide)
  · exact validateConfigSyntax_characterization.2.2.1 _ (by decide) (by decide)
  · exact validateConfigSyntax_characterization.2.2.2.1 _ "p" _ []
      (by decide) (by decide) rfl (by decide) rfl
  · exact validateConfigSyntax_characterization.2.2.2.2 _ "p" _ [] "I" _ []
      (by decide) (by decide) rfl (by decide) rfl (by decide) rfl

/-! Part: Claim C8: merge semantics -/

theorem mapLookup_foldl_insert {α : Type} (l : List (String × α))
    (acc : List (String × α)) (k : String)
    (hnd : (l.map Prod.fst).Nodup) :
    mapLookup (l.foldl (fun a kv => mapInsert a kv.1 kv.2) acc) k =
      oFirst (mapLookup l k) (mapLookup acc k) := by
  induction l generalizing acc with
  | nil => simp [mapLookup, oFirst]
  | cons kv rest ih =>
    obtain ⟨k0, v0⟩ := kv
    simp only [List.map_cons, List.nodup_cons] at hnd
    simp only [List.foldl_cons]
    rw [ih _ hnd.2]
    simp only [mapLookup]
    by_cases hk : k0 = k
    · subst hk
      have : mapLookup rest k0 = none :=
        mapLookup_eq_none rest k0 hnd.1
      rw [this, if_pos rfl, mapLookup_insert]
      simp [oFirst]
    · rw [if_neg hk, mapLookup_insert, if_neg (fun e => hk e.symm)]

/-- The base configuration of the claim's scenario: the defaults plus one
package "pkgX". -/
def basePkgX : MockeryConfig :=
  { defaultMockeryConfig with
      packages := some [("pkgX",
        { interfaces :=
          [("I", { config := { dir := "./x", filename := "" } })] })] }

/-- The override configuration of the claim's scenario: a different
filename template, an empty output package, one package "pkgY". -/
def overridePkgY : MockeryConfig :=
  { withExpector := false
    filename := "override_mock.go"
    outPkg := ""
    packages := some [("pkgY",
      { interfaces :=
        [("J", { config := { dir := "./y", filename := "" } })] })] }

/-- C8: `MergeConfigurations` keeps the base scalar when the override
scalar is default/empty and takes the override scalar otherwise, and its
package map is the union of both with the override winning on shared
keys; in the claim's concrete scenario the result has the override's
filename template, the base's output package, and both packages. -/
theorem mergeConfigurations_semantics :
    (∀ base override : MockeryConfig, override.withExpector = true →
      (mergeConfigurations base override).withExpector =
        override.withExpector) ∧
    (∀ base override : MockeryConfig, override.withExpector = false →
      (mergeConfigurations base override).withExpector =
        base.withExpector) ∧
    (∀ base override : MockeryConfig, override.filename ≠ "" →
      (mergeConfigurations base override).filename = override.filename) ∧
    (∀ base override : MockeryConfig, override.filename = "" →
      (mergeConfigurations base override).filename = base.filename) ∧
    (∀ base override : MockeryConfig, override.outPkg ≠ "" →
      (mergeConfigurations base override).outPkg = override.outPkg) ∧
    (∀ base override : MockeryConfig, override.outPkg = "" →
      (mergeConfigurations base override).outPkg = base.outPkg) ∧
    (∀ base override : MockeryConfig,
      ((override.packages.getD []).map Prod.fst).Nodup →
      ∀ k : String,
        mapLookup ((mergeConfigurations base override).packages.getD []) k =
          oFirst (mapLookup (override.packages.getD []) k)
                 (mapLookup (base.packages.getD []) k)) ∧
    ((mergeConfigurations basePkgX overridePkgY).filename =
        overridePkgY.filename ∧
      (mergeConfigurations basePkgX overridePkgY).outPkg =
        basePkgX.outPkg ∧
      mapLookup ((mergeConfigurations basePkgX overridePkgY).packages.getD [])
        "pkgX" ≠ none ∧
      mapLookup ((mergeConfigurations basePkgX overridePkgY).packages.getD [])
        "pkgY" ≠ none) := by
  refine ⟨?_, ?_, ?_, ?_, ?_, ?_, ?_, ?_⟩
  · intro base override h; simp [mergeConfigurations, h]
  · intro base override h; simp [mergeConfigurations, h]
  · intro base override h; simp [mergeConfigurations, h]
  · intro base override h; simp [mergeConfigurations, h]
  · intro base override h; simp [mergeConfigurations, h]
  · intro base override h; simp [mergeConfigurations, h]
  · intro base override hnd k
    simp only [mergeConfigurations, Option.getD_some]
    exact mapLookup_foldl_insert _ _ k hnd
  · decide

/-- C8 witness: the merge semantics evaluated on the claim's scenario. -/
theorem mergeConfigurations_semantics_witness :
    (mergeConfigurations basePkgX overridePkgY).filename =
      overridePkgY.filename ∧
    (mergeConfigurations basePkgX overridePkgY).outPkg = basePkgX.outPkg ∧
    mapLookup ((mergeConfigurations basePkgX overridePkgY).packages.getD [])
      "pkgX" =
      oFirst (mapLookup (overridePkgY.packages.getD []) "pkgX")
             (mapLookup (basePkgX.packages.getD []) "pkgX") := by
  refine ⟨mergeConfigurations_semantics.2.2.1 basePkgX overridePkgY
      (by decide),
    mergeConfigurations_semantics.2.2.2.2.2.1 basePkgX overridePkgY
      (by decide),
    mergeConfigurations_semantics.2.2.2.2.2.2.1 basePkgX overridePkgY
      (by decide) "pkgX"⟩

/-! Part: Claim C10: `GenerateConfig` is not stateless across calls -/

/-- First generation request of the failing scenario. -/
def reqPkgA : MockGenerationRequest :=
  { interfaceName := "A"
    packagePath := "pkgA"
    outputDir := ""
    withExpector := false
    filenameFormat := "" }

/-- Second generation request of the failing scenario. -/
def reqPkgB : MockGenerationRequest :=
  { interfaceName := "B"
    packagePath := "pkgB"
    outputDir := ""
    withExpector := false
    filenameFormat := "" }

/-- C10 failing input, evaluated on the code: `config := m.defaultConfig`
aliases the manager's `Packages` map, so the first call's entry leaks
into the manager's default configuration and into the second call's
result.  After `GenerateConfig(reqPkgA)`, a `GenerateConfig(reqPkgB)` on
the same manager still contains package "pkgA", unlike the same call on
a fresh manager, and the manager's default configuration itself has been
modified. -/
theorem generateConfig_not_stateless :
    mapLookup
      (((generateConfig (generateConfig defaultMockeryConfig reqPkgA).2
          reqPkgB).1).packages.getD []) "pkgA" ≠ none ∧
    mapLookup
      (((generateConfig defaultMockeryConfig reqPkgB).1).packages.getD [])
      "pkgA" = none ∧
    (generateConfig (generateConfig defaultMockeryConfig reqPkgA).2
        reqPkgB).1 ≠ (generateConfig defaultMockeryConfig reqPkgB).1 ∧
    (generateConfig defaultMockeryConfig reqPkgA).2 ≠
      defaultMockeryConfig := by
  decide

/-! Part: Claim C2: scanning survives per-file parse failures -/

/-- The spec-side description of the scan result: every file kept by the
filters (Go file, not a test, not vendored) and successfully parsed
contributes its interfaces, in walk order; parse failures contribute
nothing. -/
def keptInterfaces (files : List FileEntry) : List InterfaceDefinition :=
  files.flatMap (fun e =>
    if goHasSuffix e.path ".go" && !goHasSuffix e.path "_test.go" &&
        !strContains e.path "vendor/" then
      match e.parsed with
      | some f => scanFileDefs e.path f
      | none => []
    else [])

theorem scanProjectWalk_ok :
    ∀ files : List FileEntry, (∀ e ∈ files, e.accessErr = false) →
      ∀ acc, scanProjectWalk files acc = .ok (acc ++ keptInterfaces files) := by
  intro files
  induction files with
  | nil => intro _ acc; simp [scanProjectWalk, keptInterfaces]
  | cons e rest ih =>
    intro h acc
    have he : e.accessErr = false := h e (by simp)
    have hrest : ∀ x ∈ rest, x.accessErr = false := fun x hx =>
      h x (by simp [hx])
    have ih2 := ih hrest
    simp only [scanProjectWalk, he, Bool.false_eq_true, if_false,
      keptInterfaces, List.flatMap_cons]
    by_cases hgo : goHasSuffix e.path ".go" = true
    · by_cases htest : goHasSuffix e.path "_test.go" = true
      · simp only [hgo, htest, Bool.not_true, Bool.and_false, Bool.false_and,
          Bool.true_and, if_true, Bool.true_eq_false]
        simp [ih2, keptInterfaces]
      · by_cases hven : strContains e.path "vendor/" = true
        · simp only [hgo, htest, hven]
          simp [ih2, keptInterfaces]
        · cases hp : e.parsed with
          | none =>
            simp only [hgo, htest, hven, hp, scanFile]
            simp [ih2, keptInterfaces]
          | some f =>
            simp only [hgo, htest, hven, hp, scanFile]
            simp [ih2, keptInterfaces]
    · simp only [hgo]
      simp [ih2, keptInterfaces]

/-- C2: with the walk itself unobstructed (no filesystem access errors),
`ScanProject` returns without error even when files fail to parse: each
parse failure contributes nothing and each successfully parsed file's
interfaces are all present. -/
theorem scanProject_total_on_parse_failures :
    ∀ files : List FileEntry, (∀ e ∈ files, e.accessErr = false) →
      scanProject files = .ok (keptInterfaces files) := by
  intro files h
  unfold scanProject
  rw [scanProjectWalk_ok files h []]
  simp

/-- The concrete file of the spec's scenario: `package demo` declaring
`Greeter` with one method `Greet(name string) (string, error)`. -/
def greeterFile : GoFile :=
  { pkgName := "demo"
    decls := [.genDecl true []
      [{ name := "Greeter", line := 1
         ty := .interfaceType
           [.mk ["Greet"]
             (.funcType [.mk ["name"] (.ident "string") []]
               [.mk [] (.ident "string") [], .mk [] (.ident "error") []])
             []] }]] }

/-- The definition discovery is expected to produce for `greeterFile`. -/
def greeterDef : InterfaceDefinition :=
  { name := "Greeter"
    pkg := "demo"
    methods := [{ name := "Greet"
                  parameters := [{ name := "name", type := "string" }]
                  returns := [{ name := "", type := "string" },
                              { name := "", type := "error" }]
                  comments := [] }]
    filePath := "/p/greeter.go"
    lineNumber := 1
    comments := [] }

/-- A file that fails to parse. -/
def badEntry : FileEntry :=
  { path := "/p/bad.go", accessErr := false, parsed := none }

/-- A file that parses to `greeterFile`. -/
def greeterEntry : FileEntry :=
  { path := "/p/greeter.go", accessErr := false, parsed := some greeterFile }

/-- C2 witness: a tree with one malformed and one valid file scans
without error and still returns the valid file's interface. -/
theorem scanProject_total_on_parse_failures_witness :
    (∀ e ∈ [badEntry, greeterEntry], e.accessErr = false) ∧
    scanProject [badEntry, greeterEntry] =
      .ok (keptInterfaces [badEntry, greeterEntry]) ∧
    keptInterfaces [badEntry, greeterEntry] = [greeterDef] :=
  ⟨by decide, scanProject_total_on_parse_failures _ (by decide), by decide⟩

/-! Part: Claim C3: one definition per interface type declaration -/

mutual
/-- Whether a declaration hides a `type` declaration inside a function
body (the shape on which `ast.Inspect` exceeds the spec's "top-level"
wording). -/
def declNestedTypeDecl : Decl → Bool
  | .genDecl _ _ _ => false
  | .funcDecl body => stmtListNestedTypeDecl body

def stmtNestedTypeDecl : Stmt → Bool
  | .declStmt (.genDecl isType _ _) => isType
  | .declStmt (.funcDecl body) => stmtListNestedTypeDecl body
  | .blockStmt body => stmtListNestedTypeDecl body
  | .otherStmt => false

def stmtListNestedTypeDecl : List Stmt → Bool
  | [] => false
  | s :: rest => stmtNestedTypeDecl s || stmtListNestedTypeDecl rest
end

/-- Whether no function body in the file declares a type. -/
def fileNestedTypeDeclFree (f : GoFile) : Bool :=
  f.decls.all (fun d => !declNestedTypeDecl d)

mutual
theorem stmtInterfaces_eq_nil (pkg filePath : String) :
    ∀ s : Stmt, stmtNestedTypeDecl s = false →
      stmtInterfaces pkg filePath s = []
  | .declStmt (.genDecl isType doc specs), h => by
      simp only [stmtNestedTypeDecl] at h
      simp [stmtInterfaces, declInterfaces, h]
  | .declStmt (.funcDecl body), h => by
      simp only [stmtNestedTypeDecl] at h
      simp only [stmtInterfaces, declInterfaces]
      exact stmtListInterfaces_eq_nil pkg filePath body h
  | .blockStmt body, h => by
      simp only [stmtNestedTypeDecl] at h
      simp only [stmtInterfaces]
      exact stmtListInterfaces_eq_nil pkg filePath body h
  | .otherStmt, _ => rfl

theorem stmtListInterfaces_eq_nil (pkg filePath : String) :
    ∀ l : List Stmt, stmtListNestedTypeDecl l = false →
      stmtListInterfaces pkg filePath l = []
  | [], _ => rfl
  | s :: rest, h => by
      simp only [stmtListNestedTypeDecl, Bool.or_eq_false_iff] at h
      simp only [stmtListInterfaces]
      rw [stmtInterfaces_eq_nil pkg filePath s h.1,
          stmtListInterfaces_eq_nil pkg filePath rest h.2]
      rfl
end

/-- The spec's reading of `scanFile`: one definition per top-level type
declaration whose underlying type is an interface, in declaration order,
and nothing from function bodies.  Stated from the spec's words, for
comparison with the code's full-AST `scanFileDefs`. -/
def topLevelInterfaceDefs (filePath : String) (f : GoFile) :
    List InterfaceDefinition :=
  f.decls.flatMap (fun d =>
    match d with
    | .genDecl true doc specs => genDeclInterfaces f.pkgName filePath doc specs
    | _ => [])

theorem declListInterfaces_top_level (pkg filePath : String) :
    ∀ l : List Decl, l.all (fun d => !declNestedTypeDecl d) = true →
      declListInterfaces pkg filePath l = l.flatMap (fun d =>
        match d with
        | .genDecl true doc specs => genDeclInterfaces pkg filePath doc specs
        | _ => []) := by
  intro l
  induction l with
  | nil => intro _; rfl
  | cons d rest ih =>
    intro h
    simp only [List.all_cons, Bool.and_eq_true] at h
    simp only [declListInterfaces, List.flatMap_cons]
    rw [ih h.2]
    congr 1
    cases d with
    | genDecl isType doc specs =>
      cases isType with
      | true => rfl
      | false => rfl
    | funcDecl body =>
      have hb : stmtListNestedTypeDecl body = false := by
        simpa [declNestedTypeDecl] using h.1
      simp [declInterfaces, stmtListInterfaces_eq_nil pkg filePath body hb]

/-- A file whose only interface declaration sits inside a function body:
`func f() { type Local interface{} }`. -/
def localIfaceFile : GoFile :=
  { pkgName := "demo"
    decls := [.funcDecl [.declStmt (.genDecl true []
      [{ name := "Local", line := 2, ty := .interfaceType [] }])]] }

/-- C3 counterexample: `localIfaceFile` has no top-level type declaration
with an interface type, yet `scanFile` registers one definition, because
`ast.Inspect` also matches `GenDecl` nodes inside function bodies.  So
"exactly one InterfaceDefinition per top-level type declaration" fails. -/
theorem scanFile_registers_function_local_interface :
    topLevelInterfaceDefs "/p/local.go" localIfaceFile = [] ∧
    scanFileDefs "/p/local.go" localIfaceFile =
      [{ name := "Local", pkg := "demo", methods := []
         filePath := "/p/local.go", lineNumber := 2, comments := [] }] := by
  constructor <;> rfl

/-- C3 (amended): `scanFile` produces one InterfaceDefinition per type
declaration anywhere in the file whose underlying type is an interface
literal — so on files without function-local type declarations, exactly
one per top-level interface type declaration, in declaration order —
and anonymous interfaces inside method signatures are never registered;
on the spec's concrete scenario it yields `Greeter`'s definition with
methods, parameters and returns in declaration order. -/
theorem scanFile_one_def_per_type_decl :
    (∀ (filePath : String) (f : GoFile), fileNestedTypeDeclFree f = true →
      scanFileDefs filePath f = topLevelInterfaceDefs filePath f) ∧
    scanFileDefs "/p/greeter.go" greeterFile = [greeterDef] := by
  constructor
  · intro filePath f h
    unfold scanFileDefs topLevelInterfaceDefs
    exact declListInterfaces_top_level f.pkgName filePath f.decls h
  · rfl

/-- C3 amended-claim witness: the equality evaluated on the Greeter
file. -/
theorem scanFile_one_def_per_type_decl_witness :
    fileNestedTypeDeclFree greeterFile = true ∧
    scanFileDefs "/p/greeter.go" greeterFile =
      topLevelInterfaceDefs "/p/greeter.go" greeterFile :=
  ⟨by rfl, scanFile_one_def_per_type_decl.1 "/p/greeter.go" greeterFile
    (by rfl)⟩

/-! Part: Claim C4: `typeToString` shapes -/

/-- C4 counterexample: a fixed-size array with a literal length renders
its length through `typeToString`, which has no case for basic literals,
so `[5]int` becomes "[unknown]int" — the length expression is not
preserved. -/
theorem typeToString_literal_array_len_lost :
    typeToString (.arrayType (some (.basicLit "5")) (.ident "int")) =
      "[unknown]int" ∧ "[unknown]int" ≠ "[5]int" :=
  ⟨rfl, by decide⟩

/-- C4 (amended): `typeToString` is total and renders each shape as the
claim states, except that a fixed-size array's length expression is
itself rendered recursively: an identifier length (a named constant) is
preserved, while a numeric literal length renders as "unknown". -/
theorem typeToString_shapes :
    (∀ n, typeToString (.ident n) = n) ∧
    (∀ x s, typeToString (.selector x s) = typeToString x ++ "." ++ s) ∧
    (∀ x, typeToString (.star x) = "*" ++ typeToString x) ∧
    (∀ e, typeToString (.arrayType none e) = "[]" ++ typeToString e) ∧
    (∀ n e, typeToString (.arrayType (some (.ident n)) e) =
      "[" ++ n ++ "]" ++ typeToString e) ∧
    (∀ v e, typeToString (.arrayType (some (.basicLit v)) e) =
      "[unknown]" ++ typeToString e) ∧
    (∀ k v, typeToString (.mapType k v) =
      "map[" ++ typeToString k ++ "]" ++ typeToString v) ∧
    (∀ v, typeToString (.chanType .send v) = "chan<- " ++ typeToString v) ∧
    (∀ v, typeToString (.chanType .recv v) = "<-chan " ++ typeToString v) ∧
    (∀ v, typeToString (.chanType .both v) = "chan " ++ typeToString v) ∧
    (∀ ps rs, typeToString (.funcType ps rs) = "func") ∧
    (∀ ms, typeToString (.interfaceType ms) = "interface\x7b\x7d") ∧
    (∀ v, typeToString (.basicLit v) = "unknown") ∧
    (typeToString .structType = "unknown") := by
  refine ⟨fun n => rfl, fun x s => rfl, fun x => rfl, fun e => rfl,
    fun n e => rfl, fun v e => rfl, fun k v => rfl, fun v => rfl,
    fun v => rfl, fun v => rfl, fun ps rs => rfl, fun ms => rfl,
    fun v => rfl, rfl⟩

/-! Part: Protocol dispatcher data model (internal/server/mcp.go) -/

/-- A decoded JSON argument value, as far as the tool handlers inspect it
(they type-assert to string or bool; anything else behaves like a missing
value). -/
inductive ArgVal where
  | str (s : String)
  | boolV (b : Bool)
  | other
deriving DecidableEq

/-- The decoded `params` payload of a request.  `tools/call` re-marshals
`params` and unmarshals it into a `{name, arguments}` struct: an absent
or null payload decodes to the zero value (empty name, no arguments),
which `toolCall "" []` models, and a payload that is not a JSON object
fails that unmarshal with the carried error text. -/
inductive ReqParams where
  | toolCall (name : String) (arguments : List (String × ArgVal))
  | notObject (errText : String)
deriving DecidableEq

/-- Source: `MCPRequest`; `id = none` models an absent (or JSON null) identifier. -/
structure MCPRequest where
  jsonrpc : String
  id : Option String
  method : String
  params : ReqParams
deriving DecidableEq

/-- The `Data` payload attached to an error: either an error's text
(`err.Error()` strings) or the `os.Stat` error object passed by the
not-found branch of `handleDiscoverInterfaces`. -/
inductive ErrData where
  | msg (s : String)
  | statErr
deriving DecidableEq

/-- Source: `MCPError`. -/
structure MCPError where
  code : Int
  message : String
  data : Option ErrData
deriving DecidableEq

/-- One entry of the tool catalog (`InputSchema` is a constant literal
the claims never inspect and is elided). -/
structure Tool where
  name : String
  description : String
deriving DecidableEq

/-- A result payload, by the shapes the handlers build. -/
inductive MCPResult where
  | initializeResult (protocolVersion serverName serverVersion : String)
  | toolsList (tools : List Tool)
  | textContent (text : String)
  | statusResult (status : String)
deriving DecidableEq

/-- Source: `MCPResponse`: at most one of `result` / `error` is set. -/
structure MCPResponse where
  jsonrpc : String
  id : Option String
  result : Option MCPResult
  error : Option MCPError
deriving DecidableEq

/-- An executed external command (name, arguments, working directory). -/
structure Cmd where
  name : String
  args : List String
  dir : String
deriving DecidableEq

/-- The observable filesystem/process effects of a call. -/
structure FsState where
  createdDirs : List String
  createdFiles : List String
  executedCommands : List Cmd
deriving DecidableEq

/-- The environment the server runs against: path resolution
(`filepath.Abs`), existence (`os.Stat`), the file tree below a root
(feeding `ScanProject`), `os.MkdirAll`, `exec.LookPath`, running the
mockery command (combined output, and `none` for a zero exit status or
the exit error's text), and the current time. -/
structure Env where
  abs : String → Except String String
  pathExists : String → Bool
  filesUnder : String → List FileEntry
  mkdir : String → Except String Unit
  lookPath : String → Bool
  runMockery : String → List String → String × Option String
  now : Nat

/-- Source: `filepath.Join` of two components (path cleaning is irrelevant to
every claim and elided). -/
def joinPath (a b : String) : String :=
  if a = "" then b else a ++ "/" ++ b

/-- Source: `filepath.IsAbs` (stated over character lists so that it evaluates
by kernel reduction). -/
def isAbsPath (p : String) : Bool :=
  List.isPrefixOf "/".toList p.toList

/-! Part: Generation invoker (`GenerateMock` in mcp.go) -/

/-- The output directory: the explicit request value (made absolute if
relative; a failed `filepath.Abs` is discarded as in the source), or the
conventional `mocks` subdirectory of the resolved package location. -/
def mockOutputDir (env : Env) (request : MockGenerationRequest)
    (absPackagePath : String) : String :=
  if request.outputDir = "" then joinPath absPackagePath "mocks"
  else if isAbsPath request.outputDir then request.outputDir
  else
    match env.abs request.outputDir with
    | .ok d => d
    | .error _ => ""

/-- The output filename: the template with the interface-name token
substituted, or the lower-cased conventional name. -/
def mockFilenameOf (request : MockGenerationRequest) : String :=
  if request.filenameFormat = "" then
    "mock_" ++ request.interfaceName.toLower ++ ".go"
  else
    request.filenameFormat.replace "{{.InterfaceName}}"
      request.interfaceName

/-- The mockery command line. -/
def mockeryArgs (request : MockGenerationRequest)
    (absPackagePath outputDir mockFilename : String) : List String :=
  ["--name=" ++ request.interfaceName,
   "--dir=" ++ absPackagePath,
   "--output=" ++ outputDir,
   "--filename=" ++ mockFilename] ++
  (if request.withExpector then ["--with-expecter"] else [])

/-- The error `GenerateMock` returns when the mockery executable is not
resolvable on the search path. -/
def mockeryMissingMsg : String :=
  "mockery command not found in PATH. Please install mockery: go install github.com/vektra/mockery/v2@latest"

/-- Source: `GenerateMock`: resolve the package path, ensure the output directory
exists, derive the filename and command line, check `LookPath`, run
mockery, and wrap failures; returns the result (or error) together with
the effects performed. -/
def generateMock (env : Env) (fs : FsState)
    (request : MockGenerationRequest) :
    Except String MockGenerationResult × FsState :=
  let startTime := env.now
  match env.abs request.packagePath with
  | .error e => (.error ("failed to resolve package path: " ++ e), fs)
  | .ok absPackagePath =>
    let outputDir := mockOutputDir env request absPackagePath
    match env.mkdir outputDir with
    | .error e => (.error ("failed to create output directory: " ++ e), fs)
    | .ok _ =>
      let fs1 := { fs with createdDirs := fs.createdDirs ++ [outputDir] }
      let mockFilename := mockFilenameOf request
      let args := mockeryArgs request absPackagePath outputDir mockFilename
      if env.lookPath "mockery" then
        let fs2 := { fs1 with executedCommands := fs1.executedCommands ++
          [{ name := "mockery", args := args, dir := absPackagePath }] }
        match env.runMockery absPackagePath args with
        | (output, some execErr) =>
          (.error ("mockery failed: " ++ execErr ++ "
Output: " ++ output),
           fs2)
        | (output, none) =>
          let generatedFile := joinPath outputDir mockFilename
          (.ok { success := true
                 generatedFile := generatedFile
                 generatedAt := startTime
                 mockeryOutput := output },
           { fs2 with createdFiles := fs2.createdFiles ++ [generatedFile] })
      else (.error mockeryMissingMsg, fs1)

/-! Part: Protocol dispatcher handlers -/

/-- Source: `errorResponse`. -/
def errorResponse (id : Option String) (code : Int) (message : String)
    (data : Option ErrData) : MCPResponse :=
  { jsonrpc := "2.0", id := id, result := none
    error := some { code := code, message := message, data := data } }

/-- The fixed tool catalog `handleToolsList` returns. -/
def mcpTools : List Tool :=
  [{ name := "discover_interfaces"
     description := "Scan Go project for interface definitions" },
   { name := "generate_mock"
     description := "Generate mock using Mockery tool" },
   { name := "update_mockery_config"
     description := "Create or update .mockery.yaml configuration" }]

/-- Source: `handleToolsList`. -/
def handleToolsList (request : MCPRequest) : MCPResponse :=
  { jsonrpc := "2.0", id := request.id
    result := some (.toolsList mcpTools), error := none }

/-- One line of `formatInterfaceList` (the Go code goes through a
"simplified" map carrying exactly these four fields). -/
def interfaceLine (iface : InterfaceDefinition) : String :=
  "- " ++ iface.name ++ " (" ++ iface.pkg ++ " package) - " ++
    toString iface.methods.length ++ " methods
  File: " ++ iface.filePath

/-- Source: `formatInterfaceList`. -/
def formatInterfaceList (interfaces : List InterfaceDefinition) : String :=
  String.intercalate "
" (interfaces.map interfaceLine)

/-- Source: `handleDiscoverInterfaces`. -/
def handleDiscoverInterfaces (env : Env) (requestID : Option String)
    (args : List (String × ArgVal)) : MCPResponse :=
  match mapLookup args "project_path" with
  | some (.str projectPath) =>
    (match env.abs projectPath with
     | .error e =>
         errorResponse requestID (-32603)
           ("Failed to resolve path: " ++ projectPath) (some (.msg e))
     | .ok absPath =>
       if env.pathExists absPath then
         match scanProject (env.filesUnder absPath) with
         | .error e =>
             errorResponse requestID (-32603) "Failed to scan project"
               (some (.msg e))
         | .ok interfaces =>
           { jsonrpc := "2.0", id := requestID
             result := some (.textContent
               ("Found " ++ toString interfaces.length ++ " interfaces in " ++
                 absPath ++ ":

" ++ formatInterfaceList interfaces))
             error := none }
       else
         errorResponse requestID (-32603)
           ("Project path does not exist: " ++ absPath) (some .statErr))
  | _ => errorResponse requestID (-32602) "Missing or invalid project_path" none

/-- Source: `handleGenerateMock`: argument parsing (string/bool assertions with
the source's defaults) followed by delegation to `generateMock`. -/
def handleGenerateMock (env : Env) (fs : FsState) (requestID : Option String)
    (args : List (String × ArgVal)) : MCPResponse × FsState :=
  match mapLookup args "interface_name" with
  | some (.str interfaceName) =>
    (match mapLookup args "package_path" with
     | some (.str packagePath) =>
       let outputDir :=
         match mapLookup args "output_dir" with
         | some (.str d) => d
         | _ => ""
       let withExpector :=
         match mapLookup args "with_expecter" with
         | some (.boolV b) => b
         | _ => true
       let filenameFormat :=
         match mapLookup args "filename_format" with
         | some (.str f) => f
         | _ => ""
       let request : MockGenerationRequest :=
         { interfaceName := interfaceName
           packagePath := packagePath
           outputDir := outputDir
           withExpector := withExpector
           filenameFormat := filenameFormat }
       (match generateMock env fs request with
        | (.error e, fs1) =>
          (errorResponse requestID (-32603) "Failed to generate mock"
            (some (.msg e)), fs1)
        | (.ok result, fs1) =>
          ({ jsonrpc := "2.0", id := requestID
             result := some (.textContent
               ("Mock generated successfully:
- Interface: " ++
                interfaceName ++ "
- Package: " ++ packagePath ++
                "
- Generated: " ++ result.generatedFile))
             error := none }, fs1))
     | _ => (errorResponse requestID (-32602)
         "Missing or invalid package_path" none, fs))
  | _ => (errorResponse requestID (-32602)
      "Missing or invalid interface_name" none, fs)

/-- Source: `handleUpdateMockeryConfig`: a thin acknowledgment. -/
def handleUpdateMockeryConfig (requestID : Option String)
    (_args : List (String × ArgVal)) : MCPResponse :=
  { jsonrpc := "2.0", id := requestID
    result := some (.textContent "Mockery configuration updated successfully")
    error := none }

/-- Source: `handleToolsCall`: decode the tool-call params and route by name. -/
def handleToolsCall (env : Env) (fs : FsState) (request : MCPRequest) :
    MCPResponse × FsState :=
  match request.params with
  | .notObject errText =>
      (errorResponse request.id (-32602) "Invalid params"
        (some (.msg errText)), fs)
  | .toolCall name arguments =>
    if name = "discover_interfaces" then
      (handleDiscoverInterfaces env request.id arguments, fs)
    else if name = "generate_mock" then
      handleGenerateMock env fs request.id arguments
    else if name = "update_mockery_config" then
      (handleUpdateMockeryConfig request.id arguments, fs)
    else (errorResponse request.id (-32601) "Tool not found" none, fs)

/-- Source: `handleInitialize`. -/
def handleInitialize (request : MCPRequest) : MCPResponse :=
  { jsonrpc := "2.0", id := request.id
    result := some (.initializeResult "2024-11-05" "mockery-mcp-server"
      "1.0.0")
    error := none }

/-- Source: `handleInitialized`: no response when the request carried no id. -/
def handleInitialized (request : MCPRequest) : Option MCPResponse :=
  match request.id with
  | none => none
  | some _ =>
    some { jsonrpc := "2.0", id := request.id
           result := some (.statusResult "initialized"), error := none }

/-- Source: `handlePing`. -/
def handlePing (request : MCPRequest) : MCPResponse :=
  { jsonrpc := "2.0", id := request.id
    result := some (.statusResult "pong"), error := none }

/-- Source: `handleMCPRequest`: the method switch. -/
def handleMCPRequest (env : Env) (fs : FsState) (request : MCPRequest) :
    Option MCPResponse × FsState :=
  if request.method = "initialize" then (some (handleInitialize request), fs)
  else if request.method = "notifications/initialized" then
    (handleInitialized request, fs)
  else if request.method = "ping" then (some (handlePing request), fs)
  else if request.method = "tools/list" then
    (some (handleToolsList request), fs)
  else if request.method = "tools/call" then
    let r := handleToolsCall env fs request
    (some r.1, r.2)
  else
    (some { jsonrpc := "2.0", id := request.id, result := none
            error := some { code := -32601, message := "Method not found"
                            data := none } }, fs)

/-! Part: Pipe transport binding (`HandleStdio`) -/

/-- One line read from standard input: empty (skipped), undecodable
(logged and skipped), or a decoded request. -/
inductive StdinLine where
  | empty
  | malformed
  | decoded (request : MCPRequest)

/-- Source: `HandleStdio`: the response lines written to standard output (in
order) and the accumulated effects.  A `none` from the dispatcher (a
notification) writes nothing. -/
def handleStdio (env : Env) (fs : FsState) :
    List StdinLine → List MCPResponse × FsState
  | [] => ([], fs)
  | line :: rest =>
    match line with
    | .empty => handleStdio env fs rest
    | .malformed => handleStdio env fs rest
    | .decoded request =>
      match handleMCPRequest env fs request with
      | (none, fs1) => handleStdio env fs1 rest
      | (some response, fs1) =>
        let r := handleStdio env fs1 rest
        (response :: r.1, r.2)

/-! Part: Environment fixtures used by concrete evaluations -/

/-- A benign environment: everything resolves, exists and succeeds. -/
def envSimple : Env :=
  { abs := fun p => .ok p
    pathExists := fun _ => true
    filesUnder := fun _ => []
    mkdir := fun _ => .ok ()
    lookPath := fun _ => true
    runMockery := fun _ _ => ("", none)
    now := 0 }

/-- The empty effect log. -/
def fsEmpty : FsState :=
  { createdDirs := [], createdFiles := [], executedCommands := [] }

/-! Part: Claim C1: which requests produce responses -/

/-- A `ping` request with no identifier. -/
def pingNoId : MCPRequest :=
  { jsonrpc := "2.0", id := none, method := "ping"
    params := .toolCall "" [] }

/-- C1 counterexample: a request with an absent identifier is NOT
response-free in general — a `ping` with no id still gets exactly one
response (with a null id), on the dispatcher and on the pipe binding. -/
theorem ping_without_id_gets_response :
    pingNoId.id = none ∧
    (handleMCPRequest envSimple fsEmpty pingNoId).1 =
      some { jsonrpc := "2.0", id := none
             result := some (.statusResult "pong"), error := none } ∧
    (handleStdio envSimple fsEmpty [.decoded pingNoId]).1.length = 1 := by
  refine ⟨rfl, rfl, rfl⟩

/-- C1 (amended): the dispatcher suppresses its response exactly for a
`notifications/initialized` request whose identifier is absent; every
other request (any other method, with or without an id) produces exactly
one response, and on the pipe binding an id-less
`notifications/initialized` writes zero response lines. -/
theorem response_iff_not_initialized_notification :
    (∀ (env : Env) (fs : FsState) (request : MCPRequest),
      (handleMCPRequest env fs request).1 = none ↔
        (request.method = "notifications/initialized" ∧
          request.id = none)) ∧
    (∀ (env : Env) (fs : FsState) (params : ReqParams),
      (handleStdio env fs [.decoded
        { jsonrpc := "2.0", id := none
          method := "notifications/initialized", params := params }]).1 =
        []) := by
  constructor
  · intro env fs request
    unfold handleMCPRequest
    by_cases h1 : request.method = "initialize"
    · rw [if_pos h1]
      refine iff_of_false (by simp) ?_
      rintro ⟨hm, _⟩
      rw [h1] at hm
      exact absurd hm (by decide)
    · rw [if_neg h1]
      by_cases h2 : request.method = "notifications/initialized"
      · rw [if_pos h2]
        unfold handleInitialized
        cases hid : request.id with
        | none => exact iff_of_true rfl ⟨h2, rfl⟩
        | some i =>
          refine iff_of_false (by simp) ?_
          rintro ⟨_, hn⟩
          cases hn
      · rw [if_neg h2]
        by_cases h3 : request.method = "ping"
        · rw [if_pos h3]
          exact iff_of_false (by simp [handlePing]) (fun hc => h2 hc.1)
        · rw [if_neg h3]
          by_cases h4 : request.method = "tools/list"
          · rw [if_pos h4]
            exact iff_of_false (by simp [handleToolsList])
              (fun hc => h2 hc.1)
          · rw [if_neg h4]
            by_cases h5 : request.method = "tools/call"
            · rw [if_pos h5]
              exact iff_of_false (by simp) (fun hc => h2 hc.1)
            · rw [if_neg h5]
              exact iff_of_false (by simp) (fun hc => h2 hc.1)
  · intro env fs params
    rfl

/-! Part: Claim C5: unknown method and unknown tool -/

/-- The method names the dispatcher's switch recognizes. -/
def knownMethods : List String :=
  ["initialize", "notifications/initialized", "ping", "tools/list",
   "tools/call"]

/-- C5: a request whose method is outside the dispatcher's fixed set gets
the -32601 "Method not found" error and no result, and a `tools/call`
whose tool name is outside the catalog (the names `tools/list` returns)
gets the -32601 "Tool not found" error and no result. -/
theorem unknown_method_and_tool_yield_32601 :
    mcpTools.map Tool.name =
      ["discover_interfaces", "generate_mock", "update_mockery_config"] ∧
    (∀ (env : Env) (fs : FsState) (request : MCPRequest),
      request.method ∉ knownMethods →
      (handleMCPRequest env fs request).1 =
        some { jsonrpc := "2.0", id := request.id, result := none
               error := some { code := -32601
                               message := "Method not found"
                               data := none } }) ∧
    (∀ (env : Env) (fs : FsState) (request : MCPRequest) (name : String)
        (arguments : List (String × ArgVal)),
      request.method = "tools/call" →
      request.params = .toolCall name arguments →
      name ∉ mcpTools.map Tool.name →
      (handleMCPRequest env fs request).1 =
        some (errorResponse request.id (-32601) "Tool not found" none)) := by
  refine ⟨rfl, ?_, ?_⟩
  · intro env fs request h
    simp only [knownMethods, List.mem_cons, List.not_mem_nil, or_false,
      not_or] at h
    obtain ⟨h1, h2, h3, h4, h5⟩ := h
    unfold handleMCPRequest
    rw [if_neg h1, if_neg h2, if_neg h3, if_neg h4, if_neg h5]
  · intro env fs request name arguments hm hp hname
    simp only [mcpTools, List.map_cons, List.map_nil, List.mem_cons,
      List.not_mem_nil, or_false, not_or] at hname
    obtain ⟨hn1, hn2, hn3⟩ := hname
    unfold handleMCPRequest
    rw [if_neg (by rw [hm]; decide), if_neg (by rw [hm]; decide),
      if_neg (by rw [hm]; decide), if_neg (by rw [hm]; decide),
      if_pos hm]
    unfold handleToolsCall
    rw [hp]
    simp only [if_neg hn1, if_neg hn2, if_neg hn3]

/-- C5 witness: an unknown method and an unknown tool name, evaluated on
concrete requests. -/
theorem unknown_method_and_tool_yield_32601_witness :
    ("bogus/method" ∉ knownMethods) ∧
    (handleMCPRequest envSimple fsEmpty
      { jsonrpc := "2.0", id := some "7", method := "bogus/method"
        params := .toolCall "" [] }).1 =
      some { jsonrpc := "2.0", id := some "7", result := none
             error := some { code := -32601, message := "Method not found"
                             data := none } } ∧
    ("no_such_tool" ∉ mcpTools.map Tool.name) ∧
    (handleMCPRequest envSimple fsEmpty
      { jsonrpc := "2.0", id := some "8", method := "tools/call"
        params := .toolCall "no_such_tool" [] }).1 =
      some (errorResponse (some "8") (-32601) "Tool not found" none) :=
  ⟨by decide,
   unknown_method_and_tool_yield_32601.2.1 envSimple fsEmpty _ (by decide),
   by decide,
   unknown_method_and_tool_yield_32601.2.2 envSimple fsEmpty _
     "no_such_tool" [] rfl rfl (by decide)⟩

/-! Part: Claim C6: missing mockery executable -/

/-- C6: when `exec.LookPath` cannot resolve mockery, `GenerateMock` runs
no external command and creates no output file, never succeeds, and —
whenever control reaches the check (path resolution and directory
creation succeed) — fails with exactly the distinct, actionable
dependency message. -/
theorem mockery_missing_no_execution :
    ∀ (env : Env) (fs : FsState) (request : MockGenerationRequest),
      env.lookPath "mockery" = false →
      ((generateMock env fs request).2.executedCommands =
          fs.executedCommands ∧
        (generateMock env fs request).2.createdFiles = fs.createdFiles ∧
        ∀ r : MockGenerationResult,
          (generateMock env fs request).1 ≠ .ok r) ∧
      (∀ absPkg : String, env.abs request.packagePath = .ok absPkg →
        (∀ d : String, env.mkdir d = .ok ()) →
        (generateMock env fs request).1 = .error mockeryMissingMsg) := by
  intro env fs request hlook
  constructor
  · unfold generateMock
    cases habs : env.abs request.packagePath with
    | error e => exact ⟨rfl, rfl, fun r h => by cases h⟩
    | ok absPkg =>
      simp only
      cases hmk : env.mkdir (mockOutputDir env request absPkg) with
      | error e => exact ⟨rfl, rfl, fun r h => by cases h⟩
      | ok u =>
        simp only [hlook, Bool.false_eq_true, if_false]
        exact ⟨trivial, trivial, fun r h => by cases h⟩
  · intro absPkg habs hmk
    unfold generateMock
    rw [habs]
    simp only
    rw [hmk (mockOutputDir env request absPkg)]
    simp only [hlook, Bool.false_eq_true, if_false]

/-- An environment in which mockery is absent from the search path. -/
def envNoMockery : Env :=
  { envSimple with lookPath := fun _ => false }

/-- C6 witness: the dependency-unavailable behaviour evaluated on a
concrete request and environment. -/
theorem mockery_missing_no_execution_witness :
    envNoMockery.lookPath "mockery" = false ∧
    (generateMock envNoMockery fsEmpty reqPkgA).2.executedCommands =
      fsEmpty.executedCommands ∧
    (generateMock envNoMockery fsEmpty reqPkgA).2.createdFiles =
      fsEmpty.createdFiles ∧
    (generateMock envNoMockery fsEmpty reqPkgA).1 =
      .error mockeryMissingMsg :=
  ⟨rfl,
   (mockery_missing_no_execution envNoMockery fsEmpty reqPkgA rfl).1.1,
   (mockery_missing_no_execution envNoMockery fsEmpty reqPkgA
     rfl).1.2.1,
   (mockery_missing_no_execution envNoMockery fsEmpty reqPkgA rfl).2
     "pkgA" rfl (fun _ => rfl)⟩

/-! Part: Claim C9: discover on a non-existent project path -/

/-- An environment in which no path exists. -/
def envMissingPath : Env :=
  { envSimple with pathExists := fun _ => false }

/-- An environment in which the walk fails with an access error, making
the scan delegate fail. -/
def envScanFail : Env :=
  { envSimple with
      filesUnder := fun _ =>
        [{ path := "/p/x.go", accessErr := true, parsed := none }] }

/-- A `tools/call` request for `discover_interfaces` on `p`. -/
def discoverReq (p : String) : MCPRequest :=
  { jsonrpc := "2.0", id := some "1", method := "tools/call"
    params := .toolCall "discover_interfaces"
      [("project_path", .str p)] }

/-- C9 counterexample: the not-found branch answers with numeric code
-32603 — the very code used for delegate (internal) failures, as the
second conjunct shows on a failing scan — so the not-found condition is
not distinct from the internal-error condition in the code callers can
branch on; only the message differs.  (Neither case carries a result.) -/
theorem discover_not_found_shares_internal_error_code :
    (handleMCPRequest envMissingPath fsEmpty (discoverReq "/nope")).1 =
      some (errorResponse (some "1") (-32603)
        "Project path does not exist: /nope" (some .statErr)) ∧
    (handleMCPRequest envScanFail fsEmpty (discoverReq "/p")).1 =
      some (errorResponse (some "1") (-32603) "Failed to scan project"
        (some (.msg "failed to scan project: access error: /p/x.go"))) := by
  refine ⟨rfl, rfl⟩

/-- C9 (amended): a discover-interfaces call whose project path resolves
but does not exist returns an error response — never a result — whose
message names the missing path; its numeric code is -32603, the same
code internal/delegate failures use, so the two are distinguished only
by message. -/
theorem discover_not_found_error_semantics :
    ∀ (env : Env) (id : Option String) (args : List (String × ArgVal))
      (path absPath : String),
      mapLookup args "project_path" = some (.str path) →
      env.abs path = .ok absPath →
      env.pathExists absPath = false →
      handleDiscoverInterfaces env id args =
        errorResponse id (-32603)
          ("Project path does not exist: " ++ absPath) (some .statErr) := by
  intro env id args path absPath hlookup habs hexists
  unfold handleDiscoverInterfaces
  rw [hlookup]
  simp only
  rw [habs]
  simp only [hexists, Bool.false_eq_true, if_false]

/-- C9 amended-claim witness: the not-found semantics evaluated on a
concrete environment and argument list. -/
theorem discover_not_found_error_semantics_witness :
    envMissingPath.pathExists "/nope" = false ∧
    handleDiscoverInterfaces envMissingPath (some "1")
      [("project_path", .str "/nope")] =
      errorResponse (some "1") (-32603)
        "Project path does not exist: /nope" (some .statErr) :=
  ⟨rfl,
   discover_not_found_error_semantics envMissingPath (some "1")
     [("project_path", .str "/nope")] "/nope" "/nope" rfl rfl rfl⟩

end MockeryMCP
